import Mathlib

/-!
Shallow embedding of the Box2DPlayerMovement core (src/main.cpp):
unit conversion, shape-handle identity, the ground-sensor state machine,
the input-to-impulse mapper, the per-tick phase ordering of
`World::update`, teardown in `World::unload`, and the debug-overlay
assertion. Floating-point scalars of the source are modelled as exact
rationals; engine handles are modelled as opaque record types.
-/

namespace Box2DPlayer

/-- Constant `PPM` (pixels per meter): `constexpr float PPM = 100.0f`. -/
def PPM : ℚ := 100

/-- Function `m2Px`: convert meters to pixels, `n * PPM`. -/
def m2Px (n : ℚ) : ℚ := n * PPM

/-- Function `px2M`: convert pixels to meters, `n / PPM`. -/
def px2M (n : ℚ) : ℚ := n / PPM

/-- Planar vector with rational components (models `b2Vec2` / `Vector2`). -/
structure Vec2 where
  x : ℚ
  y : ℚ
deriving DecidableEq, Repr

/-- Function `m2PxVec`: componentwise meters-to-pixels conversion of a vector. -/
def m2PxVec (v : Vec2) : Vec2 := Vec2.mk (v.x * PPM) (v.y * PPM)

/-- Function `px2MVec`: componentwise pixels-to-meters conversion of a vector. -/
def px2MVec (v : Vec2) : Vec2 := Vec2.mk (v.x / PPM) (v.y / PPM)

/-- Model of `b2ShapeId`: the three identity components the engine
exposes (`index1`, `world0`, `generation`). -/
structure ShapeId where
  index1 : Int
  world0 : Int
  generation : Int
deriving DecidableEq, Repr

/-- Function `isShapeIdEqual` from src/main.cpp lines 45-49: compares
`generation`, `index1` and `world0` conjunctively. -/
def isShapeIdEqual (idOne idTwo : ShapeId) : Bool :=
  idOne.generation == idTwo.generation &&
    idOne.index1 == idTwo.index1 &&
    idOne.world0 == idTwo.world0

/-- Gameplay-visible Player state relevant to the ground-sensor machine:
`m_feetOnGround` from the `Player` class. -/
structure PlayerState where
  m_feetOnGround : Bool
deriving DecidableEq, Repr

/-- The Player constructor's initialisation of the grounded flag:
`m_feetOnGround = false;` (src/main.cpp line 157). -/
def playerInit : PlayerState := PlayerState.mk false

/-- Method `Player::setFootStatus`: writes the flag only when it differs. -/
def setFootStatus (p : PlayerState) (status : Bool) : PlayerState :=
  if status != p.m_feetOnGround then PlayerState.mk status else p

/-- One sensor touch event as delivered by the engine: the reporting
sensor shape handle (`b2SensorBeginTouchEvent.sensorShapeId` /
`b2SensorEndTouchEvent.sensorShapeId`). -/
structure SensorTouchEvent where
  sensorShapeId : ShapeId
deriving DecidableEq, Repr

/-- Structure `b2SensorEvents`: the engine's per-step event queue, two ordered
lists (begin-touch and end-touch). -/
structure SensorEvents where
  beginEvents : List SensorTouchEvent
  endEvents : List SensorTouchEvent
deriving DecidableEq, Repr

/-- First loop of `World::handleSensorEvents`: every begin-touch event
whose sensor shape matches the foot-sensor handle sets the flag true. -/
def processBeginEvents (footId : ShapeId) (events : List SensorTouchEvent)
    (p : PlayerState) : PlayerState :=
  events.foldl
    (fun st e =>
      if isShapeIdEqual e.sensorShapeId footId then setFootStatus st true else st) p

/-- Second loop of `World::handleSensorEvents`: every end-touch event
whose sensor shape matches the foot-sensor handle sets the flag false. -/
def processEndEvents (footId : ShapeId) (events : List SensorTouchEvent)
    (p : PlayerState) : PlayerState :=
  events.foldl
    (fun st e =>
      if isShapeIdEqual e.sensorShapeId footId then setFootStatus st false else st) p

/-- Method `World::handleSensorEvents`: drains the queue, begin-touch loop
first, end-touch loop second. -/
def handleSensorEvents (footId : ShapeId) (ev : SensorEvents)
    (p : PlayerState) : PlayerState :=
  processEndEvents footId ev.endEvents (processBeginEvents footId ev.beginEvents p)

/-- A single sensor event tagged with its touch kind, for stating the
per-event transition behaviour. -/
inductive SensorEvent where
  | beginTouch (sensorShapeId : ShapeId)
  | endTouch (sensorShapeId : ShapeId)
deriving DecidableEq, Repr

/-- The effect of one sensor event on the grounded flag, as the body of
the corresponding loop in `World::handleSensorEvents` performs it. -/
def processSensorEvent (footId : ShapeId) (p : PlayerState) :
    SensorEvent → PlayerState
  | SensorEvent.beginTouch sid =>
      if isShapeIdEqual sid footId then setFootStatus p true else p
  | SensorEvent.endTouch sid =>
      if isShapeIdEqual sid footId then setFootStatus p false else p

/-- A linear impulse applied to the Player body: the impulse vector and
the application point passed to `b2Body_ApplyLinearImpulse`. -/
structure Impulse where
  vec : Vec2
  point : Vec2
deriving DecidableEq, Repr

/-- Method `Player::moveRight`: impulse of `mass * .50f` on the x axis at the body's world
center of mass. -/
def moveRight (mass : ℚ) (com : Vec2) : Impulse :=
  Impulse.mk (Vec2.mk (mass * (1/2)) 0) com

/-- Method `Player::moveLeft`: impulse of `-(mass * .50f)` on the x axis at the body's
world center of mass. -/
def moveLeft (mass : ℚ) (com : Vec2) : Impulse :=
  Impulse.mk (Vec2.mk (-(mass * (1/2))) 0) com

/-- Method `Player::jump`: when `m_feetOnGround` holds, one impulse of
`-(mass * 10.0f)` on the y axis at the body's world center of mass; otherwise no
impulse. Returns the list of impulse calls performed. -/
def jump (mass : ℚ) (com : Vec2) (st : PlayerState) : List Impulse :=
  if st.m_feetOnGround then [Impulse.mk (Vec2.mk 0 (-(mass * 10))) com] else []

/-- Input snapshot for one tick: `IsKeyDown(KEY_D)`, `IsKeyDown(KEY_A)`,
`IsKeyPressed(KEY_SPACE)`. -/
structure InputState where
  keyD : Bool
  keyA : Bool
  keySpacePressed : Bool
deriving DecidableEq, Repr

/-- The horizontal branch of `World::update`: `if (D) moveRight(); else
if (A) moveLeft();` — the impulse calls it performs. -/
def horizontalImpulses (inp : InputState) (mass : ℚ) (com : Vec2) : List Impulse :=
  if inp.keyD then [moveRight mass com]
  else if inp.keyA then [moveLeft mass com]
  else []

/-- The whole input-to-impulse phase of `World::update`: the horizontal
branch followed by the jump branch. Returns the impulse calls performed
and the Player state after the phase (the phase never writes it). -/
def updateImpulsePhase (inp : InputState) (mass : ℚ) (com : Vec2)
    (st : PlayerState) : List Impulse × PlayerState :=
  (horizontalImpulses inp mass com ++
    (if inp.keySpacePressed then jump mass com st else []), st)

/-- The observable phases of one tick of the simulation loop. -/
inductive Phase where
  | applyImpulses
  | refreshPose
  | worldStep
  | drainSensorEvents
  | render
deriving DecidableEq, Repr

/-- The phase order performed by `World::update` (src/main.cpp lines
254-269): input-derived impulses, then `m_player.update()` (pose
refresh), then `b2World_Step`, then `handleSensorEvents()`. -/
def worldUpdateTrace : List Phase :=
  [Phase.applyImpulses, Phase.refreshPose, Phase.worldStep, Phase.drainSensorEvents]

/-- One iteration of the main loop: `world.update()` then `world.draw()`
(rendering consumes the cached pose). -/
def tickTrace : List Phase := worldUpdateTrace ++ [Phase.render]

/-- One teardown operation issued to the engine. Body handles are
modelled as natural numbers. -/
inductive TeardownOp where
  | destroyBody (handle : Nat)
  | destroyWorld
deriving DecidableEq, Repr

/-- The body handles a `World` owns: the Player body, the platform
bodies, and the invisible-wall bodies. -/
structure WorldBodies where
  m_player : Nat
  m_platforms : List Nat
  m_invisibleWalls : List Nat
deriving DecidableEq, Repr

/-- The bodies created by the `World` constructor, numbered in creation
order: player, four platforms, two invisible walls. -/
def worldInitBodies : WorldBodies :=
  WorldBodies.mk 0 [1, 2, 3, 4] [5, 6]

/-- Method `World::unload` (src/main.cpp lines 288-297): destroys each
platform body, then the player body, then the world. No other destroy
call is made. -/
def unload (w : WorldBodies) : List TeardownOp :=
  w.m_platforms.map TeardownOp.destroyBody ++
    [TeardownOp.destroyBody w.m_player] ++ [TeardownOp.destroyWorld]

/-- Shape kinds handled by the debug overlay (`b2Shape_GetType`). -/
inductive ShapeType where
  | polygonShape
  | capsuleShape
  | other
deriving DecidableEq, Repr

/-- Function `drawDebugBodyPolygons` (src/main.cpp lines 320-408), modelled on
the body's attached shape list: the hard assertion
`assert(b2Body_GetShapeCount(...) != 0)` fires before any shape query
when the body has zero shapes; otherwise the shapes are enumerated and
each one is drawn (polygon, capsule) or reported and skipped (other). -/
def drawDebugBodyPolygons (shapes : List ShapeType) : Except String (List ShapeType) :=
  if shapes.length ≠ 0 then Except.ok shapes
  else Except.error "Assertion failed. Body contains no shapes."

end Box2DPlayer

namespace Box2DPlayer

/-- Claim C8 — Unit conversion round-trips: for all (rational-modelled)
scalars `x`, `px2M (m2Px x) = x` (exact, hence within any tolerance);
`m2Px x = x * PPM` and `px2M x = x / PPM` with `PPM` a fixed constant;
the vector forms apply the scalar conversion component-wise, and the
vector round-trip is also exact. -/
theorem unit_conversion_round_trip (x : ℚ) (v : Vec2) :
    px2M (m2Px x) = x ∧
    m2Px x = x * PPM ∧
    px2M x = x / PPM ∧
    m2PxVec v = Vec2.mk (m2Px v.x) (m2Px v.y) ∧
    px2MVec v = Vec2.mk (px2M v.x) (px2M v.y) ∧
    px2MVec (m2PxVec v) = v := by
  refine ⟨?_, rfl, rfl, rfl, rfl, ?_⟩
  · unfold px2M m2Px PPM
    field_simp
  · unfold px2MVec m2PxVec PPM
    cases v with
    | mk vx vy =>
      simp only [Vec2.mk.injEq]
      constructor <;> field_simp

/-- Claim C6 — `isShapeIdEqual` returns `true` iff every identity
component the engine exposes (`generation`, `index1`, `world0`) is equal
between the two handles; equality is never decided from a single field. -/
theorem isShapeIdEqual_iff_all_components (a b : ShapeId) :
    isShapeIdEqual a b = true ↔
      a.generation = b.generation ∧ a.index1 = b.index1 ∧ a.world0 = b.world0 := by
  unfold isShapeIdEqual
  simp [Bool.and_eq_true, and_assoc]

/-- Helper: `setFootStatus` always leaves the flag equal to the
requested status (writing only on change is observationally a write). -/
theorem setFootStatus_flag (p : PlayerState) (s : Bool) :
    (setFootStatus p s).m_feetOnGround = s := by
  unfold setFootStatus
  split
  · rfl
  · next h =>
    cases s <;> cases hp : p.m_feetOnGround <;> simp_all

/-- Claim C2 — The grounded flag starts false at Player construction;
a begin-touch event sets it true exactly when the event's sensor-shape
identity matches the foot-sensor handle, an end-touch event sets it
false exactly under the same match, and any non-matching event leaves
the flag unchanged. -/
theorem grounded_flag_transitions (footId sid : ShapeId) (p : PlayerState) :
    playerInit.m_feetOnGround = false ∧
    (processSensorEvent footId p (SensorEvent.beginTouch sid)).m_feetOnGround =
      (if isShapeIdEqual sid footId then true else p.m_feetOnGround) ∧
    (processSensorEvent footId p (SensorEvent.endTouch sid)).m_feetOnGround =
      (if isShapeIdEqual sid footId then false else p.m_feetOnGround) := by
  refine ⟨rfl, ?_, ?_⟩ <;>
    · simp only [processSensorEvent]
      by_cases h : isShapeIdEqual sid footId = true <;>
        simp [h, setFootStatus_flag]

/-- Claim C3 — Jump gating: with the grounded flag false, `jump`
performs no impulse call; with it true, it performs exactly one vertical
impulse, of magnitude `mass * K` with `K = 10` (which lies in the 6-10
range), applied at the body's world center of mass. -/
theorem jump_gating (mass : ℚ) (com : Vec2) (st : PlayerState) (hm : 0 ≤ mass) :
    (st.m_feetOnGround = false → jump mass com st = []) ∧
    (st.m_feetOnGround = true →
      jump mass com st = [Impulse.mk (Vec2.mk 0 (-(mass * 10))) com] ∧
      |(-(mass * 10) : ℚ)| = mass * 10 ∧ (6 : ℚ) ≤ 10 ∧ (10 : ℚ) ≤ 10) := by
  constructor
  · intro h
    unfold jump
    simp [h]
  · intro h
    refine ⟨by unfold jump; simp [h], ?_, by norm_num, le_refl _⟩
    rw [abs_neg, abs_of_nonneg]
    positivity

/-- Witness for C3 at mass 2, grounded, origin center of mass. -/
theorem jump_gating_witness :
    (0 : ℚ) ≤ 2 ∧
      jump 2 (Vec2.mk 0 0) (PlayerState.mk true) =
        [Impulse.mk (Vec2.mk 0 (-(2 * 10))) (Vec2.mk 0 0)] := by
  have h := jump_gating 2 (Vec2.mk 0 0) (PlayerState.mk true) (by norm_num)
  exact ⟨by norm_num, (h.2 rfl).1⟩

/-- Claim C5 — At most one horizontal impulse per tick: the move-right
key held produces exactly the `+mass * 0.5` impulse, otherwise the
move-left key held produces the `-mass * 0.5` impulse; with both held,
right wins and nothing is added; holding move-right for `n` consecutive
ticks yields exactly `n` such impulses. -/
theorem horizontal_impulse_per_tick (inp : InputState) (mass : ℚ) (com : Vec2) (n : Nat) :
    (horizontalImpulses inp mass com).length ≤ 1 ∧
    (inp.keyD = true → horizontalImpulses inp mass com = [moveRight mass com]) ∧
    (inp.keyD = false → inp.keyA = true →
      horizontalImpulses inp mass com = [moveLeft mass com]) ∧
    (moveRight mass com).vec = Vec2.mk (mass * (1/2)) 0 ∧
    (moveLeft mass com).vec = Vec2.mk (-(mass * (1/2))) 0 ∧
    (inp.keyD = true →
      (List.replicate n (horizontalImpulses inp mass com)).flatten =
        List.replicate n (moveRight mass com)) := by
  have hjoin : ∀ (m : Nat) (a : Impulse),
      (List.replicate m [a]).flatten = List.replicate m a := by
    intro m a
    induction m with
    | zero => rfl
    | succ k ih => simp [List.replicate_succ, ih]
  refine ⟨?_, ?_, ?_, rfl, rfl, ?_⟩
  · unfold horizontalImpulses
    split
    · simp
    · split <;> simp
  · intro h
    unfold horizontalImpulses
    simp [h]
  · intro hD hA
    unfold horizontalImpulses
    simp [hD, hA]
  · intro h
    rw [show horizontalImpulses inp mass com = [moveRight mass com] by
      unfold horizontalImpulses; simp [h]]
    exact hjoin n (moveRight mass com)

/-- Witness for C5 with both direction keys held, mass 2, three ticks:
right wins and three ticks give exactly three right impulses. -/
theorem horizontal_impulse_per_tick_witness :
    horizontalImpulses (InputState.mk true true false) 2 (Vec2.mk 0 0) =
      [moveRight 2 (Vec2.mk 0 0)] ∧
    (List.replicate 3 (horizontalImpulses (InputState.mk true true false) 2
        (Vec2.mk 0 0))).flatten =
      List.replicate 3 (moveRight 2 (Vec2.mk 0 0)) := by
  have h := horizontal_impulse_per_tick (InputState.mk true true false) 2 (Vec2.mk 0 0) 3
  exact ⟨h.2.1 rfl, h.2.2.2.2.2 rfl⟩

/-- Claim C7 — When no intent key is active in a tick, the
input-to-impulse phase performs no impulse call, raises no error, and
leaves the Player state untouched. -/
theorem no_input_no_impulse (inp : InputState) (mass : ℚ) (com : Vec2) (st : PlayerState)
    (hD : inp.keyD = false) (hA : inp.keyA = false) (hS : inp.keySpacePressed = false) :
    updateImpulsePhase inp mass com st = ([], st) := by
  unfold updateImpulsePhase horizontalImpulses
  simp [hD, hA, hS]

/-- Witness for C7: all keys inactive, mass 2, grounded player. -/
theorem no_input_no_impulse_witness :
    updateImpulsePhase (InputState.mk false false false) 2 (Vec2.mk 1 1)
        (PlayerState.mk true) =
      ([], PlayerState.mk true) :=
  no_input_no_impulse (InputState.mk false false false) 2 (Vec2.mk 1 1)
    (PlayerState.mk true) rfl rfl rfl

/-- Claim C1 — The phase order of one tick as the code performs it:
impulses are applied before the world step and the sensor-event queue is
drained after the step, as the claim says; but the Player's cached pose
is refreshed BEFORE the world step (`m_player.update()` precedes
`b2World_Step` in `World::update`), not after it, so rendering consumes
the pose of the previous step. This refutes the claim's last phase
requirement. -/
theorem tick_phase_order :
    tickTrace = [Phase.applyImpulses, Phase.refreshPose, Phase.worldStep,
      Phase.drainSensorEvents, Phase.render] ∧
    List.indexOf Phase.applyImpulses tickTrace < List.indexOf Phase.worldStep tickTrace ∧
    List.indexOf Phase.worldStep tickTrace < List.indexOf Phase.drainSensorEvents tickTrace ∧
    List.indexOf Phase.drainSensorEvents tickTrace < List.indexOf Phase.render tickTrace ∧
    List.indexOf Phase.refreshPose tickTrace < List.indexOf Phase.worldStep tickTrace := by
  decide

/-- Claim C4 — Teardown of the constructed world: `World::unload`
destroys the four platform bodies and the player body and destroys the
world handle last, but never destroys either invisible-wall body. This
refutes the claim that every owned body is destroyed before the world
handle. -/
theorem unload_skips_invisible_walls :
    unload worldInitBodies =
      [TeardownOp.destroyBody 1, TeardownOp.destroyBody 2, TeardownOp.destroyBody 3,
        TeardownOp.destroyBody 4, TeardownOp.destroyBody 0, TeardownOp.destroyWorld] ∧
    worldInitBodies.m_invisibleWalls = [5, 6] ∧
    List.count (TeardownOp.destroyBody 5) (unload worldInitBodies) = 0 ∧
    List.count (TeardownOp.destroyBody 6) (unload worldInitBodies) = 0 ∧
    List.getLast? (unload worldInitBodies) = some TeardownOp.destroyWorld := by
  decide

/-- Claim C9 — The debug-overlay shape enumeration asserts a nonzero
shape count: on a body with zero attached shapes the hard assertion
fails before any shape query; on any body with at least one shape the
assertion passes and the enumeration proceeds over exactly the attached
shapes. -/
theorem debug_polygons_assertion (shapes : List ShapeType) (h : shapes ≠ []) :
    drawDebugBodyPolygons [] =
      Except.error "Assertion failed. Body contains no shapes." ∧
    drawDebugBodyPolygons shapes = Except.ok shapes := by
  refine ⟨rfl, ?_⟩
  have hlen : shapes.length ≠ 0 := by
    simpa [List.length_eq_zero] using h
  simp [drawDebugBodyPolygons, hlen]

/-- Witness for C9 on a one-polygon body. -/
theorem debug_polygons_assertion_witness :
    drawDebugBodyPolygons [ShapeType.polygonShape] =
      Except.ok [ShapeType.polygonShape] :=
  (debug_polygons_assertion [ShapeType.polygonShape] (by decide)).2

/-- Helper: the end-touch loop never sets the flag once it is false
(matching events write false, non-matching events leave it alone). -/
theorem processEndEvents_preserves_false (footId : ShapeId) :
    ∀ (events : List SensorTouchEvent) (p : PlayerState),
      p.m_feetOnGround = false →
      (processEndEvents footId events p).m_feetOnGround = false := by
  intro events
  induction events with
  | nil => intro p hp; exact hp
  | cons e rest ih =>
    intro p hp
    have hstep : processEndEvents footId (e :: rest) p =
        processEndEvents footId rest
          (if isShapeIdEqual e.sensorShapeId footId then setFootStatus p false else p) := rfl
    rw [hstep]
    apply ih
    by_cases hmatch : isShapeIdEqual e.sensorShapeId footId = true <;>
      simp [hmatch, setFootStatus_flag, hp]

/-- Helper: if the end-touch list holds any matching event, the flag is
false after the end-touch loop, whatever the starting state. -/
theorem processEndEvents_matching_false (footId : ShapeId) :
    ∀ (events : List SensorTouchEvent) (p : PlayerState) (e : SensorTouchEvent),
      e ∈ events → isShapeIdEqual e.sensorShapeId footId = true →
      (processEndEvents footId events p).m_feetOnGround = false := by
  intro events
  induction events with
  | nil => intro p e he; cases he
  | cons a rest ih =>
    intro p e he hmatch
    have hstep : processEndEvents footId (a :: rest) p =
        processEndEvents footId rest
          (if isShapeIdEqual a.sensorShapeId footId then setFootStatus p false else p) := rfl
    rw [hstep]
    rcases List.mem_cons.mp he with h1 | h2
    · subst h1
      apply processEndEvents_preserves_false
      simp [hmatch, setFootStatus_flag]
    · exact ih _ e h2 hmatch

/-- Helper: `handleSensorEvents` equals a single left fold of the
per-event transition over all begin-touch events followed by all
end-touch events. -/
theorem handleSensorEvents_eq_fold (footId : ShapeId) (ev : SensorEvents)
    (p : PlayerState) :
    handleSensorEvents footId ev p =
      ((ev.beginEvents.map fun e => SensorEvent.beginTouch e.sensorShapeId) ++
        (ev.endEvents.map fun e => SensorEvent.endTouch e.sensorShapeId)).foldl
        (processSensorEvent footId) p := by
  unfold handleSensorEvents processBeginEvents processEndEvents
  rw [List.foldl_append, List.foldl_map, List.foldl_map]
  rfl

/-- Claim C10 — Within one drain of the sensor-event queue, the code
processes every begin-touch event before any end-touch event; hence if
the drained batch contains both a matching begin-touch and a matching
end-touch event for the foot sensor, the grounded flag is false after
the drain, whatever state it started in. -/
theorem drain_begins_before_ends (footId : ShapeId) (ev : SensorEvents)
    (p : PlayerState) (eb ee : SensorTouchEvent)
    (hb : eb ∈ ev.beginEvents)
    (hbm : isShapeIdEqual eb.sensorShapeId footId = true)
    (he : ee ∈ ev.endEvents)
    (hem : isShapeIdEqual ee.sensorShapeId footId = true) :
    handleSensorEvents footId ev p =
      ((ev.beginEvents.map fun e => SensorEvent.beginTouch e.sensorShapeId) ++
        (ev.endEvents.map fun e => SensorEvent.endTouch e.sensorShapeId)).foldl
        (processSensorEvent footId) p ∧
    (handleSensorEvents footId ev p).m_feetOnGround = false := by
  refine ⟨handleSensorEvents_eq_fold footId ev p, ?_⟩
  exact processEndEvents_matching_false footId ev.endEvents _ ee he hem

/-- Witness for C10: a batch with one matching begin-touch and one
matching end-touch event, starting from an ungrounded player. -/
theorem drain_begins_before_ends_witness :
    (handleSensorEvents (ShapeId.mk 1 2 3)
        (SensorEvents.mk [SensorTouchEvent.mk (ShapeId.mk 1 2 3)]
          [SensorTouchEvent.mk (ShapeId.mk 1 2 3)])
        (PlayerState.mk false)).m_feetOnGround = false :=
  (drain_begins_before_ends (ShapeId.mk 1 2 3)
    (SensorEvents.mk [SensorTouchEvent.mk (ShapeId.mk 1 2 3)]
      [SensorTouchEvent.mk (ShapeId.mk 1 2 3)])
    (PlayerState.mk false)
    (SensorTouchEvent.mk (ShapeId.mk 1 2 3)) (SensorTouchEvent.mk (ShapeId.mk 1 2 3))
    (by decide) (by decide) (by decide) (by decide)).2

end Box2DPlayer
